import Mathlib

/-!
Verification of the weather-location-dashboard backend core
(`src/backend/src/server.ts` and the full server embedded in
`src/backend/prisma/migrations/20260103173025_recent_unique_upsert/migration.sql`,
plus the frontend search flow in `src/frontend/src/App.tsx`).

The TypeScript functions are shallowly embedded: strings are `String`
(lists of characters), JS `null`/`undefined` become `Option`, external
HTTP calls become explicit response values passed in, the Prisma tables
become lists of rows with an explicit unique-key discipline, and wall
clock time is an explicit `Nat` parameter.
-/

/-- Whitespace test used to model the JS regex class backslash-s and
`String.prototype.trim`. -/
def isWs (c : Char) : Bool := c.isWhitespace

/-- Drop leading and trailing whitespace, modelling `s.trim()`. -/
def trimChars (l : List Char) : List Char :=
  ((l.dropWhile isWs).reverse.dropWhile isWs).reverse

/-- One pass of run collapsing: the boolean says whether the previous
character belonged to a whitespace run that has already emitted its
single space.  Models `s.replace(/\s+/g, " ")`. -/
def collapseWsAux : Bool → List Char → List Char
  | _, [] => []
  | prevWs, c :: rest =>
    if isWs c then
      if prevWs then collapseWsAux true rest
      else ' ' :: collapseWsAux true rest
    else c :: collapseWsAux false rest

/-- Replace every maximal whitespace run by a single space,
modelling `s.replace(/\s+/g, " ")`. -/
def collapseWs (l : List Char) : List Char := collapseWsAux false l

/-- The normalization applied to the city name inside `makeCityKey`:
`city.trim().toLowerCase().replace(/\s+/g, " ")`. -/
def normNameChars (s : String) : List Char :=
  collapseWs ((trimChars s.data).map Char.toLower)

/-- The normalization applied to the country inside `makeCityKey`:
`(country ?? "").trim().toLowerCase()`. -/
def normCountryChars (country : Option String) : List Char :=
  (trimChars (country.getD "").data).map Char.toLower

/-- `makeCityKey` from server.ts line 47: the identity key is the
normalized name, a bar, and the normalized country. -/
def makeCityKey (city : String) (country : Option String) : String :=
  ⟨normNameChars city ++ ('|' :: normCountryChars country)⟩

example : makeCityKey "Seoul" (some "KR") = "seoul|kr" := by decide

/-- C1: the identity key is case-insensitive and whitespace-normalizing
on the name and case-insensitive on the country (absent country = empty
string): any two inputs with the same normalized name and country give
the same key; for a fixed name, countries with distinct normalizations
give distinct keys; and the two concrete examples from the spec hold. -/
theorem makeCityKey_case_ws_insensitive_country_discriminating :
    (∀ n1 n2 k1 k2, normNameChars n1 = normNameChars n2 →
      normCountryChars k1 = normCountryChars k2 →
      makeCityKey n1 k1 = makeCityKey n2 k2)
    ∧ (∀ n k1 k2, normCountryChars k1 ≠ normCountryChars k2 →
      makeCityKey n k1 ≠ makeCityKey n k2)
    ∧ makeCityKey "Seoul" (some "KR") = makeCityKey " seoul  " (some "kr")
    ∧ makeCityKey "Seoul" (some "KR") ≠ makeCityKey "Seoul" (some "US") := by
  refine ⟨?_, ?_, by decide, by decide⟩
  · intro n1 n2 k1 k2 hn hk
    simp [makeCityKey, hn, hk]
  · intro n k1 k2 hk h
    apply hk
    have hdata : normNameChars n ++ ('|' :: normCountryChars k1)
        = normNameChars n ++ ('|' :: normCountryChars k2) := congrArg String.data h
    have := List.append_cancel_left hdata
    exact (List.cons.injEq _ _ _ _ ▸ this).2

/-- Witness for the identity-key theorem at concrete inputs. -/
theorem makeCityKey_case_ws_insensitive_country_discriminating_witness :
    makeCityKey "NEW  York" (some " us ") = makeCityKey "new York " (some "US")
    ∧ makeCityKey "Paris" (some "FR") ≠ makeCityKey "Paris" (some "US") :=
  ⟨makeCityKey_case_ws_insensitive_country_discriminating.1
      "NEW  York" "new York " (some " us ") (some "US") (by decide) (by decide),
   makeCityKey_case_ws_insensitive_country_discriminating.2.1
      "Paris" (some "FR") (some "US") (by decide)⟩

/-- JS `String.prototype.trim`, shared by the route handlers. -/
def jsTrim (s : String) : String := ⟨trimChars s.data⟩

/-- A row of the `RecentSearch` table: `cityKey` carries the unique index
`RecentSearch_cityKey_key` from the migration. -/
structure RecentRow where
  city : String
  country : Option String
  cityKey : String
  createdAt : Nat
  updatedAt : Nat
deriving DecidableEq, Repr

/-- `prisma.recentSearch.upsert` keyed by the unique `cityKey` index:
when a row with the key exists, update its display fields (with the
Prisma `updatedAt` auto-refresh); otherwise create a fresh row with
`createdAt = updatedAt = now`. -/
def upsertRecent (rows : List RecentRow) (city : String) (country : Option String)
    (key : String) (now : Nat) : List RecentRow :=
  if rows.any (fun r => r.cityKey == key) then
    rows.map (fun r =>
      if r.cityKey == key then
        { r with city := city, country := country, updatedAt := now }
      else r)
  else rows ++ [⟨city, country, key, now, now⟩]

/-- Step 4 of the weather routes: persist the recent search under its
identity key. -/
def recordSearch (rows : List RecentRow) (city : String) (country : Option String)
    (now : Nat) : List RecentRow :=
  upsertRecent rows city country (makeCityKey city country) now

/-- Number of rows carrying a given identity key. -/
def countKey (rows : List RecentRow) (key : String) : Nat :=
  (rows.filter (fun r => r.cityKey == key)).length

/-- First row carrying a given identity key (`findUnique`). -/
def findKey (rows : List RecentRow) (key : String) : Option RecentRow :=
  rows.find? (fun r => r.cityKey == key)


theorem countKey_map_keyfix (f : RecentRow → RecentRow)
    (hf : ∀ r, (f r).cityKey = r.cityKey) (rows : List RecentRow) (key : String) :
    countKey (rows.map f) key = countKey rows key := by
  induction rows with
  | nil => rfl
  | cons r rs ih =>
    cases hb : (r.cityKey == key) with
    | false => simp [countKey, List.filter_cons, hf, hb] at ih ⊢; exact ih
    | true => simp [countKey, List.filter_cons, hf, hb] at ih ⊢; exact ih

theorem findKey_map_keyfix (f : RecentRow → RecentRow)
    (hf : ∀ r, (f r).cityKey = r.cityKey) (rows : List RecentRow) (key : String) :
    findKey (rows.map f) key = (findKey rows key).map f := by
  induction rows with
  | nil => rfl
  | cons r rs ih =>
    cases hb : (r.cityKey == key) with
    | false => simp [findKey, List.find?_cons, hf, hb] at ih ⊢; exact ih
    | true => simp [findKey, List.find?_cons, hf, hb]

theorem any_map_keyfix (f : RecentRow → RecentRow)
    (hf : ∀ r, (f r).cityKey = r.cityKey) (rows : List RecentRow) (key : String) :
    (rows.map f).any (fun r => r.cityKey == key) = rows.any (fun r => r.cityKey == key) := by
  induction rows with
  | nil => rfl
  | cons r rs ih =>
    cases hb : (r.cityKey == key) with
    | false => simp [List.any_cons, hf, hb] at ih ⊢; exact ih
    | true => simp [List.any_cons, hf, hb]

theorem countKey_eq_zero_of_any_false (rows : List RecentRow) (key : String)
    (h : rows.any (fun r => r.cityKey == key) = false) : countKey rows key = 0 := by
  induction rows with
  | nil => rfl
  | cons r rs ih =>
    rw [List.any_cons, Bool.or_eq_false_iff] at h
    have h2 := ih h.2
    simp [countKey, List.filter_cons, h.1] at h2 ⊢
    exact h2

theorem findKey_append_single_of_any_false (rows : List RecentRow) (r0 : RecentRow)
    (key : String) (h : rows.any (fun r => r.cityKey == key) = false)
    (hr : (r0.cityKey == key) = true) : findKey (rows ++ [r0]) key = some r0 := by
  induction rows with
  | nil => simp [findKey, List.find?_cons, hr]
  | cons r rs ih =>
    rw [List.any_cons, Bool.or_eq_false_iff] at h
    simpa [findKey, List.find?_cons, h.1] using ih h.2

theorem countKey_append (rows1 rows2 : List RecentRow) (key : String) :
    countKey (rows1 ++ rows2) key = countKey rows1 key + countKey rows2 key := by
  simp [countKey, List.filter_append]

theorem findKey_isSome_of_any (rows : List RecentRow) (key : String)
    (h : rows.any (fun r => r.cityKey == key) = true) :
    ∃ r0, findKey rows key = some r0 ∧ (r0.cityKey == key) = true := by
  induction rows with
  | nil => simp at h
  | cons r rs ih =>
    cases hb : (r.cityKey == key) with
    | true => exact ⟨r, by simp [findKey, List.find?_cons, hb], hb⟩
    | false =>
      rw [List.any_cons, hb, Bool.false_or] at h
      obtain ⟨r0, h0, hk⟩ := ih h
      refine ⟨r0, ?_, hk⟩
      simpa [findKey, List.find?_cons, hb] using h0

theorem upsertRecent_hit (rows : List RecentRow) (city : String) (country : Option String)
    (key : String) (now : Nat) (h : rows.any (fun r => r.cityKey == key) = true) :
    upsertRecent rows city country key now = rows.map (fun r =>
      if r.cityKey == key then
        { r with city := city, country := country, updatedAt := now }
      else r) := by
  simp [upsertRecent, h]

theorem upsertRecent_miss (rows : List RecentRow) (city : String) (country : Option String)
    (key : String) (now : Nat) (h : rows.any (fun r => r.cityKey == key) = false) :
    upsertRecent rows city country key now = rows ++ [⟨city, country, key, now, now⟩] := by
  simp [upsertRecent, h]

/-- C2: recording the same place twice (any casing/whitespace giving the
same identity key) leaves exactly one `RecentSearch` row for that key:
the second call updates the existing row in place, strictly increasing
`updatedAt` and leaving `createdAt` unchanged, provided the unique index
held before (at most one row for the key) and time advanced between the
calls. -/
theorem recordSearch_twice_single_row (rows : List RecentRow)
    (n1 n2 : String) (c1 c2 : Option String) (t1 t2 : Nat)
    (hkey : makeCityKey n2 c2 = makeCityKey n1 c1)
    (hU : countKey rows (makeCityKey n1 c1) ≤ 1)
    (ht : t1 < t2) :
    countKey (recordSearch (recordSearch rows n1 c1 t1) n2 c2 t2) (makeCityKey n1 c1) = 1
    ∧ ∃ r1 r2,
        findKey (recordSearch rows n1 c1 t1) (makeCityKey n1 c1) = some r1
        ∧ findKey (recordSearch (recordSearch rows n1 c1 t1) n2 c2 t2)
            (makeCityKey n1 c1) = some r2
        ∧ r2.createdAt = r1.createdAt
        ∧ r2.updatedAt = t2
        ∧ r1.updatedAt < r2.updatedAt := by
  set key := makeCityKey n1 c1 with hk
  have hfix1 : ∀ r : RecentRow,
      ((if r.cityKey == key then
        { r with city := n1, country := c1, updatedAt := t1 } else r) : RecentRow).cityKey
      = r.cityKey := by
    intro r
    cases hb : (r.cityKey == key) with
    | false => simp [hb]
    | true => simp [hb]
  have hfix2 : ∀ r : RecentRow,
      ((if r.cityKey == key then
        { r with city := n2, country := c2, updatedAt := t2 } else r) : RecentRow).cityKey
      = r.cityKey := by
    intro r
    cases hb : (r.cityKey == key) with
    | false => simp [hb]
    | true => simp [hb]
  cases hany : rows.any (fun r => r.cityKey == key) with
  | true =>
    -- the key is already present before the first call
    obtain ⟨r0, hfind0, hkr0⟩ := findKey_isSome_of_any rows key hany
    have hkr0p : r0.cityKey = key := by simpa using hkr0
    have hcount1 : countKey rows key = 1 := by
      have hmem : r0 ∈ rows := List.mem_of_find?_eq_some hfind0
      have hmemf : r0 ∈ rows.filter (fun r => r.cityKey == key) :=
        List.mem_filter.2 ⟨hmem, hkr0⟩
      have hpos := List.length_pos_of_mem hmemf
      have : 0 < countKey rows key := by simpa [countKey] using hpos
      omega
    have hst1 : recordSearch rows n1 c1 t1 = rows.map (fun r =>
        if r.cityKey == key then
          { r with city := n1, country := c1, updatedAt := t1 }
        else r) := by
      rw [recordSearch, ← hk, upsertRecent_hit rows n1 c1 key t1 hany]
    have hany1 : (recordSearch rows n1 c1 t1).any (fun r => r.cityKey == key) = true := by
      rw [hst1, any_map_keyfix _ hfix1, hany]
    have hst2 : recordSearch (recordSearch rows n1 c1 t1) n2 c2 t2
        = (recordSearch rows n1 c1 t1).map (fun r =>
        if r.cityKey == key then
          { r with city := n2, country := c2, updatedAt := t2 }
        else r) := by
      rw [recordSearch, hkey, upsertRecent_hit _ n2 c2 key t2 hany1]
    refine ⟨?_, ?_⟩
    · rw [hst2, countKey_map_keyfix _ hfix2, hst1, countKey_map_keyfix _ hfix1]
      exact hcount1
    · refine ⟨{ r0 with city := n1, country := c1, updatedAt := t1 },
        { r0 with city := n2, country := c2, updatedAt := t2 }, ?_, ?_, rfl, rfl, ht⟩
      · rw [hst1, findKey_map_keyfix _ hfix1, hfind0]
        simp [hkr0p]
      · rw [hst2, findKey_map_keyfix _ hfix2, hst1, findKey_map_keyfix _ hfix1, hfind0]
        simp [hkr0p]
  | false =>
    -- the key is absent: the first call inserts, the second updates in place
    have hst1 : recordSearch rows n1 c1 t1 = rows ++ [⟨n1, c1, key, t1, t1⟩] := by
      rw [recordSearch, ← hk, upsertRecent_miss rows n1 c1 key t1 hany]
    have hfind1 : findKey (recordSearch rows n1 c1 t1) key = some ⟨n1, c1, key, t1, t1⟩ := by
      rw [hst1]
      exact findKey_append_single_of_any_false rows _ key hany (by simp)
    have hany1 : (recordSearch rows n1 c1 t1).any (fun r => r.cityKey == key) = true := by
      rw [hst1]
      simp
    have hst2 : recordSearch (recordSearch rows n1 c1 t1) n2 c2 t2
        = (recordSearch rows n1 c1 t1).map (fun r =>
        if r.cityKey == key then
          { r with city := n2, country := c2, updatedAt := t2 }
        else r) := by
      rw [recordSearch, hkey, upsertRecent_hit _ n2 c2 key t2 hany1]
    refine ⟨?_, ?_⟩
    · rw [hst2, countKey_map_keyfix _ hfix2, hst1, countKey_append,
        countKey_eq_zero_of_any_false rows key hany]
      simp [countKey, List.filter]
    · refine ⟨⟨n1, c1, key, t1, t1⟩,
        { (⟨n1, c1, key, t1, t1⟩ : RecentRow) with
            city := n2, country := c2, updatedAt := t2 }, hfind1, ?_, rfl, rfl, ht⟩
      rw [hst2, findKey_map_keyfix _ hfix2, hfind1]
      simp

/-- Witness for the double-record theorem at concrete inputs. -/
theorem recordSearch_twice_single_row_witness :
    countKey (recordSearch (recordSearch [] "Seoul" (some "KR") 5) " SEOUL " (some "kr") 9)
      (makeCityKey "Seoul" (some "KR")) = 1
    ∧ ∃ r1 r2,
        findKey (recordSearch [] "Seoul" (some "KR") 5) (makeCityKey "Seoul" (some "KR")) = some r1
        ∧ findKey (recordSearch (recordSearch [] "Seoul" (some "KR") 5) " SEOUL " (some "kr") 9)
            (makeCityKey "Seoul" (some "KR")) = some r2
        ∧ r2.createdAt = r1.createdAt
        ∧ r2.updatedAt = 9
        ∧ r1.updatedAt < r2.updatedAt :=
  recordSearch_twice_single_row [] "Seoul" " SEOUL " (some "KR") (some "kr") 5 9
    (by decide) (by decide) (by decide)

/-- A row of the `FavoriteCity` table, with its unique `cityKey` index. -/
structure FavRow where
  city : String
  country : Option String
  cityKey : String
  createdAt : Nat
deriving DecidableEq, Repr

/-- `prisma.favoriteCity.findUnique` reduced to its existence content. -/
def favHasKey (favs : List FavRow) (key : String) : Bool :=
  favs.any (fun r => r.cityKey == key)

/-- POST `/api/favorites/toggle`: trim the inputs, reject an empty city
(`400`, modelled as `none`), compute the identity key, then branch on
`findUnique`: delete the row and answer `isFavorite = false` when it
exists, create it and answer `isFavorite = true` otherwise. -/
def toggleFavorite (favs : List FavRow) (cityRaw : String) (countryRaw : Option String)
    (now : Nat) : Option (String × Bool × List FavRow) :=
  let city := jsTrim cityRaw
  let country := countryRaw.map jsTrim
  if city = "" then none
  else
    let key := makeCityKey city country
    if favHasKey favs key then
      some (key, false, favs.filter (fun r => !(r.cityKey == key)))
    else
      some (key, true, favs ++ [⟨city, country, key, now⟩])

theorem filter_ne_key_of_not_fav (favs : List FavRow) (key : String)
    (h : favHasKey favs key = false) :
    favs.filter (fun r => !(r.cityKey == key)) = favs := by
  induction favs with
  | nil => rfl
  | cons r rs ih =>
    rw [favHasKey, List.any_cons, Bool.or_eq_false_iff] at h
    simp [List.filter_cons, h.1, ih h.2]

/-- C3: the favorites toggle is a strict alternator: on a store without
the identity key it inserts the row and reports `isFavorite = true`; on
a store holding the key it deletes the row and reports
`isFavorite = false`; hence from absence two successive calls answer
`true` then `false` and restore the original store. -/
theorem toggleFavorite_alternator (cityRaw : String) (countryRaw : Option String)
    (t1 t2 : Nat) (hc : ¬ jsTrim cityRaw = "") :
    (∀ favs, favHasKey favs (makeCityKey (jsTrim cityRaw) (countryRaw.map jsTrim)) = false →
      toggleFavorite favs cityRaw countryRaw t1
        = some (makeCityKey (jsTrim cityRaw) (countryRaw.map jsTrim), true,
            favs ++ [⟨jsTrim cityRaw, countryRaw.map jsTrim,
              makeCityKey (jsTrim cityRaw) (countryRaw.map jsTrim), t1⟩]))
    ∧ (∀ favs, favHasKey favs (makeCityKey (jsTrim cityRaw) (countryRaw.map jsTrim)) = true →
      toggleFavorite favs cityRaw countryRaw t1
        = some (makeCityKey (jsTrim cityRaw) (countryRaw.map jsTrim), false,
            favs.filter (fun r =>
              !(r.cityKey == makeCityKey (jsTrim cityRaw) (countryRaw.map jsTrim)))))
    ∧ (∀ favs, favHasKey favs (makeCityKey (jsTrim cityRaw) (countryRaw.map jsTrim)) = false →
      toggleFavorite (favs ++ [⟨jsTrim cityRaw, countryRaw.map jsTrim,
          makeCityKey (jsTrim cityRaw) (countryRaw.map jsTrim), t1⟩]) cityRaw countryRaw t2
        = some (makeCityKey (jsTrim cityRaw) (countryRaw.map jsTrim), false, favs)) := by
  refine ⟨?_, ?_, ?_⟩
  · intro favs h
    simp [toggleFavorite, hc, h]
  · intro favs h
    simp [toggleFavorite, hc, h]
  · intro favs h
    have hfull : favHasKey (favs ++ [⟨jsTrim cityRaw, countryRaw.map jsTrim,
        makeCityKey (jsTrim cityRaw) (countryRaw.map jsTrim), t1⟩])
        (makeCityKey (jsTrim cityRaw) (countryRaw.map jsTrim)) = true := by
      simp [favHasKey]
    simp [toggleFavorite, hc, hfull, List.filter_append,
      filter_ne_key_of_not_fav favs _ h]

/-- Witness for the toggle alternator at concrete inputs. -/
theorem toggleFavorite_alternator_witness :
    toggleFavorite [] "Seoul" (some "KR") 3
      = some (makeCityKey (jsTrim "Seoul") ((some "KR").map jsTrim), true,
          [] ++ [⟨jsTrim "Seoul", (some "KR").map jsTrim,
            makeCityKey (jsTrim "Seoul") ((some "KR").map jsTrim), 3⟩])
    ∧ toggleFavorite ([] ++ [⟨jsTrim "Seoul", (some "KR").map jsTrim,
          makeCityKey (jsTrim "Seoul") ((some "KR").map jsTrim), 3⟩]) "Seoul" (some "KR") 7
      = some (makeCityKey (jsTrim "Seoul") ((some "KR").map jsTrim), false, []) :=
  ⟨(toggleFavorite_alternator "Seoul" (some "KR") 3 7 (by decide)).1 [] (by decide),
   (toggleFavorite_alternator "Seoul" (some "KR") 3 7 (by decide)).2.2 [] (by decide)⟩

/-- Apostrophe character, kept out of string literals. -/
def apos : Char := Char.ofNat 39

/-- Skip up to and including the first closing angle bracket, if any:
the tail of a regex match of the tag pattern starting at the current
position. -/
def dropThroughGt : List Char → Option (List Char)
  | [] => none
  | c :: rest => if c = '>' then some rest else dropThroughGt rest

/-- Fuelled scanner for `input.replace(/<[^>]*>/g, " ")`: each maximal
tag match becomes one space; a lone opening bracket with no closing
bracket anywhere later matches nothing and is kept verbatim.  The fuel
only bounds recursion; one unit per emitted character suffices because
every step consumes at least one input character. -/
def stripTagsAux : Nat → List Char → List Char
  | 0, l => l
  | _, [] => []
  | fuel + 1, c :: rest =>
    if c = '<' then
      match dropThroughGt rest with
      | some rest2 => ' ' :: stripTagsAux fuel rest2
      | none => c :: rest
    else c :: stripTagsAux fuel rest

/-- `input.replace(/<[^>]*>/g, " ")`. -/
def stripTags (l : List Char) : List Char := stripTagsAux l.length l

/-- Does the pattern literally start the list? -/
def startsWithChars : List Char → List Char → Bool
  | [], _ => true
  | _ :: _, [] => false
  | p :: ps, c :: cs => p == c && startsWithChars ps cs

/-- Fuelled leftmost non-overlapping literal replacement, the semantics
of `s.replace(/lit/g, rep)`: the replacement text is not rescanned
within one pass. -/
def replaceAllAux (pat rep : List Char) : Nat → List Char → List Char
  | 0, l => l
  | _, [] => []
  | fuel + 1, c :: rest =>
    if startsWithChars pat (c :: rest) then
      rep ++ replaceAllAux pat rep fuel ((c :: rest).drop pat.length)
    else c :: replaceAllAux pat rep fuel rest

/-- `s.replace(/lit/g, rep)` for a nonempty literal pattern. -/
def replaceAllChars (pat rep l : List Char) : List Char :=
  replaceAllAux pat rep l.length l

/-- The five sequential entity replacements of `cleanHtmlToText`, in
source order: amp, quot, the numeric apostrophe, lt, gt. -/
def decodeEntities (l : List Char) : List Char :=
  replaceAllChars "&gt;".data ['>'] (
    replaceAllChars "&lt;".data ['<'] (
      replaceAllChars "&#39;".data [apos] (
        replaceAllChars "&quot;".data ['"'] (
          replaceAllChars "&amp;".data ['&'] l))))

/-- `cleanHtmlToText` from the server: falsy input gives null, then
strip tags, decode the five entities, collapse whitespace and trim, and
discard results shorter than 3 characters. -/
def cleanHtmlToText (input : Option String) : Option String :=
  match input with
  | none => none
  | some s =>
    if s = "" then none
    else
      let s3 := trimChars (collapseWs (decodeEntities (stripTags s.data)))
      if s3.length < 3 then none else some ⟨s3⟩

/-- The anchor-tag example from the spec, spelled without apostrophe
literals: the tag around the text carries a single-quoted attribute. -/
def anchorExample : String :=
  "<a href=" ++ ⟨[apos]⟩ ++ "x" ++ ⟨[apos]⟩ ++ ">Hi &amp; bye</a>"

/-- C8: description cleaning is exactly strip-tags, decode the five
entities, collapse-and-trim whitespace, and null below 3 characters;
the anchor example cleans to the decoded text, a full entity round-trip
decodes, and any input whose cleaned core is the 2-character string ok
yields null, as does null or empty input. -/
theorem cleanHtmlToText_pipeline :
    cleanHtmlToText none = none
    ∧ cleanHtmlToText (some "") = none
    ∧ (∀ s : String, ¬ s = "" →
        cleanHtmlToText (some s)
          = (if (trimChars (collapseWs (decodeEntities (stripTags s.data)))).length < 3
             then none
             else some ⟨trimChars (collapseWs (decodeEntities (stripTags s.data)))⟩))
    ∧ cleanHtmlToText (some anchorExample) = some "Hi & bye"
    ∧ cleanHtmlToText (some "&lt;x&gt; &amp; &quot;y&quot; &#39;z&#39;")
        = some ("<x> & \"y\" " ++ ⟨[apos]⟩ ++ "z" ++ ⟨[apos]⟩)
    ∧ (∀ s : String, trimChars (collapseWs (decodeEntities (stripTags s.data))) = "ok".data →
        cleanHtmlToText (some s) = none) := by
  refine ⟨rfl, by decide, ?_, by decide, by decide, ?_⟩
  · intro s hs
    simp [cleanHtmlToText, hs]
  · intro s hcore
    by_cases hs : s = ""
    · simp [cleanHtmlToText, hs]
    · simp [cleanHtmlToText, hs, hcore]

/-- Witness for the cleaning theorem: a tag-wrapped 2-character body is
discarded. -/
theorem cleanHtmlToText_pipeline_witness :
    cleanHtmlToText (some "<b>ok</b>") = none :=
  cleanHtmlToText_pipeline.2.2.2.2.2 "<b>ok</b>" (by decide)

/-- An external HTTP response handed to the embedded route: the status
flag, the numeric status, and the already-parsed JSON body. -/
structure HttpResp (α : Type) where
  ok : Bool
  status : Nat
  body : α
deriving DecidableEq, Repr

/-- One parsed `item` node of the Google News RSS feed.  `pubDateIso`
holds the ISO-8601 rendering of the `pubDate` field when it is present
and parses, abstracting `new Date(it.pubDate).toISOString()`. -/
structure RssItem where
  title : Option String
  link : Option String
  source : Option String
  description : Option String
  pubDateIso : Option String
deriving DecidableEq, Repr

/-- `parsed?.rss?.channel?.item`: missing, a single bare object, or an
array. -/
inductive FeedItems where
  | absent
  | one (it : RssItem)
  | many (its : List RssItem)
deriving DecidableEq, Repr

/-- The parsed feed, reduced to the only field the route reads. -/
structure Feed where
  item : FeedItems
deriving DecidableEq, Repr

/-- `Array.isArray(items) ? items : items ? [items] : []`. -/
def normalizeItems : FeedItems → List RssItem
  | .absent => []
  | .one it => [it]
  | .many its => its

/-- JS truthiness of a string-valued field: absent and empty are falsy. -/
def truthyStr : Option String → Bool
  | none => false
  | some s => !(s == "")

/-- The response shape of one headline entry. -/
structure HeadlineItem where
  title : String
  source : Option String
  url : String
  publishedAt : Option String
  description : Option String
deriving DecidableEq, Repr

/-- The `.map` body of `fetchGoogleNewsRss`: stringify title and link,
keep a nonempty source only, clean the description. -/
def toHeadline (it : RssItem) : HeadlineItem :=
  { title := it.title.getD ""
    source := match it.source with
      | some s => if s = "" then none else some s
      | none => none
    url := it.link.getD ""
    publishedAt := it.pubDateIso
    description := cleanHtmlToText it.description }

/-- `fetchGoogleNewsRss`: a non-success response yields the empty list;
otherwise normalize the single-or-many item shape, keep items with
truthy title and link, take the first 10, and map them to headlines.
The city and country only shape the request URL. -/
def fetchGoogleNewsRss (city : String) (country : Option String)
    (resp : HttpResp Feed) : List HeadlineItem :=
  if !resp.ok then []
  else
    (((normalizeItems resp.body.item).filter
      (fun it => truthyStr it.title && truthyStr it.link)).take 10).map toHeadline

/-- C7: the headline fetcher is best-effort and shape-normalizing: any
non-success provider response gives the empty list; a single bare item
is treated exactly like a one-element list; the output never exceeds 10
items; an item missing a title or link is dropped without affecting the
rest; and on a list feed the output is exactly the truthy-filtered
items, truncated to 10 in feed order, mapped to headlines. -/
theorem fetchGoogleNewsRss_best_effort (city : String) (country : Option String) :
    (∀ status f, fetchGoogleNewsRss city country ⟨false, status, f⟩ = [])
    ∧ (∀ status it, fetchGoogleNewsRss city country ⟨true, status, ⟨.one it⟩⟩
        = fetchGoogleNewsRss city country ⟨true, status, ⟨.many [it]⟩⟩)
    ∧ (∀ resp, (fetchGoogleNewsRss city country resp).length ≤ 10)
    ∧ (∀ status pre post bad,
        (truthyStr bad.title && truthyStr bad.link) = false →
        fetchGoogleNewsRss city country ⟨true, status, ⟨.many (pre ++ bad :: post)⟩⟩
          = fetchGoogleNewsRss city country ⟨true, status, ⟨.many (pre ++ post)⟩⟩)
    ∧ (∀ status its, fetchGoogleNewsRss city country ⟨true, status, ⟨.many its⟩⟩
        = ((its.filter (fun it => truthyStr it.title && truthyStr it.link)).take 10).map
            toHeadline) := by
  refine ⟨?_, ?_, ?_, ?_, ?_⟩
  · intro status f
    simp [fetchGoogleNewsRss]
  · intro status it
    rfl
  · intro resp
    rcases resp with ⟨ok, status, f⟩
    cases ok with
    | false => simp [fetchGoogleNewsRss]
    | true =>
      simp only [fetchGoogleNewsRss, Bool.not_true, Bool.false_eq_true, if_false,
        List.length_map, List.length_take]
      omega
  · intro status pre post bad hbad
    simp [fetchGoogleNewsRss, normalizeItems, List.filter_append, List.filter_cons, hbad]
  · intro status its
    rfl

/-- Witness for the headline fetcher theorem at concrete inputs. -/
theorem fetchGoogleNewsRss_best_effort_witness :
    fetchGoogleNewsRss "Seoul" (some "KR") ⟨false, 503, ⟨.absent⟩⟩ = []
    ∧ fetchGoogleNewsRss "Seoul" (some "KR")
        ⟨true, 200, ⟨.many ([] ++ ⟨none, some "u", none, none, none⟩ :: [])⟩⟩
      = fetchGoogleNewsRss "Seoul" (some "KR") ⟨true, 200, ⟨.many ([] ++ [])⟩⟩ :=
  ⟨(fetchGoogleNewsRss_best_effort "Seoul" (some "KR")).1 503 ⟨.absent⟩,
   (fetchGoogleNewsRss_best_effort "Seoul" (some "KR")).2.2.2.1 200 [] []
     ⟨none, some "u", none, none, none⟩ (by decide)⟩

/-- `lat.toFixed(3)` as an injective value: ECMAScript extracts the
sign first, then rounds the magnitude to the nearest thousandth with
ties going to the larger numerator, so the rendered string is
determined by (and determines) the sign flag together with the rounded
magnitude numerator. -/
def jsToFixed3 (x : ℚ) : Bool × ℕ := (decide (x < 0), (⌊|x| * 1000 + 1/2⌋).toNat)

/-- The cache key type standing for the rendered coordinate string. -/
abbrev CoordKeyT := (Bool × ℕ) × (Bool × ℕ)

/-- `coordKey` from the server: both coordinates rendered via
`toFixed(3)` and joined. -/
def coordKey (lat lon : ℚ) : CoordKeyT := (jsToFixed3 lat, jsToFixed3 lon)

/-- The `ReverseGeo` record. -/
structure RegionInfo where
  displayName : Option String
  region : Option String
  regionCode : Option String
  county : Option String
deriving DecidableEq, Repr

/-- The fallback record with every field null. -/
def nullRegion : RegionInfo := ⟨none, none, none, none⟩

/-- The `address` object of a Nominatim reply; absent or non-string
fields are `none` except where the code only checks `typeof`.
`isoLvl4` and `isoLvl3` stand for the bracketed ISO3166-2 keys. -/
structure RevAddress where
  state : Option String
  province : Option String
  region : Option String
  state_district : Option String
  state_code : Option String
  isoLvl4 : Option String
  isoLvl3 : Option String
  county : Option String
deriving DecidableEq, Repr

/-- Outcome of the reverse-geocode fetch: `fail` covers a non-ok status
and a thrown fetch or JSON error (both produce the cached fallback). -/
inductive RevResp where
  | fail
  | ok (displayName : Option String) (addr : RevAddress)
deriving DecidableEq, Repr

/-- `x && typeof x === "string" ? x : null`: drop the empty string. -/
def keepTruthy : Option String → Option String
  | some s => if s = "" then none else some s
  | none => none

/-- Field extraction of `reverseGeocode` on a successful reply: the
nullish-coalescing chains keep the first present field, then falsy
values are dropped; `display_name` only passes a typeof check. -/
def extractRegion (displayName : Option String) (addr : RevAddress) : RegionInfo :=
  { displayName := displayName
    region := keepTruthy (((addr.state.or addr.province).or addr.region).or addr.state_district)
    regionCode := keepTruthy ((addr.state_code.or addr.isoLvl4).or addr.isoLvl3)
    county := keepTruthy addr.county }

/-- The process-wide `reverseCache` map. -/
abbrev RevCache := List (CoordKeyT × RegionInfo)

/-- `reverseCache.get`. -/
def cacheFind (cache : RevCache) (k : CoordKeyT) : Option RegionInfo :=
  match cache with
  | [] => none
  | (k0, v) :: rest => if k0 = k then some v else cacheFind rest k

/-- `reverseGeocode`: round the coordinates into the cache key, answer
from the cache when possible, otherwise consult the provider once and
cache the outcome — the all-null fallback on failure, the extracted
record on success.  The boolean reports whether the provider was
called. -/
def reverseGeocode (cache : RevCache) (lat lon : ℚ) (resp : RevResp) :
    RegionInfo × RevCache × Bool :=
  let key := coordKey lat lon
  match cacheFind cache key with
  | some v => (v, cache, false)
  | none =>
    match resp with
    | .fail => (nullRegion, (key, nullRegion) :: cache, true)
    | .ok dn addr =>
      let out := extractRegion dn addr
      (out, (key, out) :: cache, true)

/-- C9: the reverse-geocode cache memoizes per 3-decimal rounded key,
successes and failures alike: a cached key is answered with no provider
call; a failed provider call yields the all-null record and caches it;
after any first lookup, a second lookup whose coordinates round to the
same key performs no provider call, and after a failed first lookup it
returns the cached all-null record. -/
theorem reverseGeocode_cache_policy (cache : RevCache) (lat1 lon1 lat2 lon2 : ℚ)
    (resp1 resp2 : RevResp) (hkey : coordKey lat2 lon2 = coordKey lat1 lon1) :
    (∀ v, cacheFind cache (coordKey lat1 lon1) = some v →
      reverseGeocode cache lat1 lon1 resp1 = (v, cache, false))
    ∧ (cacheFind cache (coordKey lat1 lon1) = none →
      reverseGeocode cache lat1 lon1 .fail
        = (nullRegion, (coordKey lat1 lon1, nullRegion) :: cache, true))
    ∧ (reverseGeocode (reverseGeocode cache lat1 lon1 resp1).2.1 lat2 lon2 resp2).2.2 = false
    ∧ (cacheFind cache (coordKey lat1 lon1) = none →
      reverseGeocode (reverseGeocode cache lat1 lon1 .fail).2.1 lat2 lon2 resp2
        = (nullRegion, (reverseGeocode cache lat1 lon1 .fail).2.1, false)) := by
  refine ⟨?_, ?_, ?_, ?_⟩
  · intro v hv
    simp [reverseGeocode, hv]
  · intro hnone
    simp [reverseGeocode, hnone]
  · rcases hfind : cacheFind cache (coordKey lat1 lon1) with _ | v
    · cases resp1 with
      | fail =>
        simp [reverseGeocode, hfind, hkey, cacheFind]
      | ok dn addr =>
        simp [reverseGeocode, hfind, hkey, cacheFind]
    · simp [reverseGeocode, hfind, hkey]
  · intro hnone
    simp [reverseGeocode, hnone, hkey, cacheFind]

theorem jsToFixed3_eval (x : ℚ) (n : ℕ) (hx : 0 ≤ x)
    (h1 : (n : ℚ) ≤ x * 1000 + 1/2) (h2 : x * 1000 + 1/2 < (n : ℚ) + 1) :
    jsToFixed3 x = (false, n) := by
  have hfloor : ⌊|x| * 1000 + 1/2⌋ = (n : ℤ) := by
    rw [abs_of_nonneg hx, Int.floor_eq_iff]
    exact ⟨by exact_mod_cast h1, by exact_mod_cast h2⟩
  have hd : decide (x < 0) = false := decide_eq_false (not_lt.2 hx)
  show (decide (x < 0), (⌊|x| * 1000 + 1/2⌋).toNat) = (false, n)
  rw [hd, hfloor]
  simp

/-- Witness for the cache policy: 37.12341 and 37.12344 round to the
same 3-decimal key, a failed first lookup is cached as all-null, and
the second lookup answers from the cache without a provider call. -/
theorem reverseGeocode_cache_policy_witness :
    (reverseGeocode [] (37.12341 : ℚ) (127.5 : ℚ) .fail
      = (nullRegion, (coordKey (37.12341 : ℚ) (127.5 : ℚ), nullRegion) :: [], true))
    ∧ reverseGeocode (reverseGeocode [] (37.12341 : ℚ) (127.5 : ℚ) .fail).2.1
        (37.12344 : ℚ) (127.5 : ℚ) (.ok (some "x") ⟨none, none, none, none, none, none, none, none⟩)
      = (nullRegion, (reverseGeocode [] (37.12341 : ℚ) (127.5 : ℚ) .fail).2.1, false) :=
  ⟨(reverseGeocode_cache_policy [] (37.12341 : ℚ) (127.5 : ℚ) (37.12344 : ℚ) (127.5 : ℚ)
      .fail .fail (by
        have a1 : jsToFixed3 (37.12344 : ℚ) = (false, 37123) :=
          jsToFixed3_eval _ 37123 (by norm_num) (by norm_num) (by norm_num)
        have a2 : jsToFixed3 (37.12341 : ℚ) = (false, 37123) :=
          jsToFixed3_eval _ 37123 (by norm_num) (by norm_num) (by norm_num)
        simp [coordKey, a1, a2])).2.1 rfl,
   (reverseGeocode_cache_policy [] (37.12341 : ℚ) (127.5 : ℚ) (37.12344 : ℚ) (127.5 : ℚ)
      .fail (.ok (some "x") ⟨none, none, none, none, none, none, none, none⟩)
      (by
        have a1 : jsToFixed3 (37.12344 : ℚ) = (false, 37123) :=
          jsToFixed3_eval _ 37123 (by norm_num) (by norm_num) (by norm_num)
        have a2 : jsToFixed3 (37.12341 : ℚ) = (false, 37123) :=
          jsToFixed3_eval _ 37123 (by norm_num) (by norm_num) (by norm_num)
        simp [coordKey, a1, a2])).2.2.2 rfl⟩

/-- `aqiLabel` from the server: the switch compares the nullable index
against 1..5 in order and defaults to null (including null input). -/
def aqiLabel (aqi : Option Int) : Option String :=
  if aqi = some 1 then some "Good"
  else if aqi = some 2 then some "Fair"
  else if aqi = some 3 then some "Moderate"
  else if aqi = some 4 then some "Poor"
  else if aqi = some 5 then some "Very Poor"
  else none

/-- `main` object of the current-conditions reply. -/
structure OWMain where
  temp : Option ℚ
deriving DecidableEq, Repr

/-- One entry of the `weather` array. -/
structure OWWeatherEntry where
  description : Option String
deriving DecidableEq, Repr

/-- The `OpenWeatherCurrent` body shape read by the route. -/
structure OWCurrent where
  name : Option String
  sysCountry : Option String
  main : Option OWMain
  weather : Option (List OWWeatherEntry)
  message : Option String
deriving DecidableEq, Repr

/-- `main` object of one air-pollution list entry. -/
structure OWAirMain where
  aqi : Option Int
deriving DecidableEq, Repr

/-- One entry of the air-pollution `list`. -/
structure OWAirEntry where
  main : Option OWAirMain
deriving DecidableEq, Repr

/-- The `OpenWeatherAir` body shape read by the route. -/
structure OWAir where
  list : Option (List OWAirEntry)
  message : Option String
deriving DecidableEq, Repr

/-- `airData?.list?.[0]?.main?.aqi ?? null`. -/
def extractAqi (a : OWAir) : Option Int :=
  ((a.list.bind (fun l => l.head?)).bind (fun e => e.main)).bind (fun m => m.aqi)

/-- The provider responses one aggregated request consumes. -/
structure AggEnv where
  weather : HttpResp OWCurrent
  air : HttpResp OWAir
  rev : RevResp
  feed : HttpResp Feed
deriving Repr

/-- The shared mutable server state: both tables and the process cache. -/
structure SrvState where
  recent : List RecentRow
  favorites : List FavRow
  revCache : RevCache
deriving Repr

/-- Number of calls issued to each external collaborator. -/
structure Calls where
  geo : Nat
  weather : Nat
  air : Nat
  region : Nat
  news : Nat
deriving DecidableEq, Repr

/-- An HTTP route outcome: JSON payload or error status and message. -/
inductive ApiOut (α : Type) where
  | ok (value : α)
  | err (status : Nat) (msg : String)
deriving DecidableEq, Repr

/-- The merged JSON payload of the aggregation routes. -/
structure AggPayload where
  city : String
  country : Option String
  lat : ℚ
  lon : ℚ
  region : Option String
  regionCode : Option String
  county : Option String
  displayName : Option String
  temp : Option ℚ
  description : Option String
  aqi : Option Int
  aqiText : Option String
  news : List HeadlineItem
  isFavorite : Bool
deriving DecidableEq, Repr

/-- GET `/api/weatherByCoords`, the aggregation pipeline run after a
resolved candidate: a failed current-conditions call is fatal and
propagates status and message with nothing else run; otherwise the
air-quality call fills aqi and its label only when it succeeds, the
reverse-geocode cache and the news fetch enrich the payload, the recent
search is upserted under the identity key, and the favorite flag is
looked up. -/
def weatherByCoords (env : AggEnv) (st : SrvState) (lat lon : ℚ) (now : Nat) :
    ApiOut AggPayload × SrvState × Calls :=
  if !env.weather.ok then
    (.err env.weather.status (env.weather.body.message.getD "OpenWeather error"), st,
      ⟨0, 1, 0, 0, 0⟩)
  else
    let city := env.weather.body.name.getD "Unknown"
    let country := env.weather.body.sysCountry
    let aqi : Option Int := if env.air.ok then extractAqi env.air.body else none
    let aqiText : Option String := if env.air.ok then aqiLabel (extractAqi env.air.body) else none
    let revOut := reverseGeocode st.revCache lat lon env.rev
    let news := fetchGoogleNewsRss city country env.feed
    let key := makeCityKey city country
    let recent2 := upsertRecent st.recent city country key now
    let fav := favHasKey st.favorites key
    (.ok { city, country, lat, lon,
           region := revOut.1.region, regionCode := revOut.1.regionCode,
           county := revOut.1.county, displayName := revOut.1.displayName,
           temp := env.weather.body.main.bind (fun m => m.temp),
           description := (env.weather.body.weather.bind (fun l => l.head?)).bind
             (fun e => e.description),
           aqi, aqiText, news, isFavorite := fav },
     ⟨recent2, st.favorites, revOut.2.1⟩,
     ⟨0, 1, 1, if revOut.2.2 then 1 else 0, 1⟩)

/-- C5: a failed current-conditions call is fatal: the route answers an
error with the provider status and its message (or the fixed fallback
text), no payload is produced, the whole server state — including the
recent-search table — is untouched, and no air, region or news call is
made. -/
theorem weather_failure_fatal (env : AggEnv) (st : SrvState) (lat lon : ℚ) (now : Nat)
    (hfail : env.weather.ok = false) :
    weatherByCoords env st lat lon now
      = (.err env.weather.status (env.weather.body.message.getD "OpenWeather error"), st,
         ⟨0, 1, 0, 0, 0⟩) := by
  simp [weatherByCoords, hfail]

/-- Witness for the fatal-weather theorem at a concrete environment. -/
theorem weather_failure_fatal_witness :
    weatherByCoords
        ⟨⟨false, 404, ⟨none, none, none, none, some "city not found"⟩⟩,
         ⟨true, 200, ⟨some [⟨some ⟨some 2⟩⟩], none⟩⟩, .fail, ⟨true, 200, ⟨.absent⟩⟩⟩
        ⟨[], [], []⟩ 1 2 0
      = (.err 404 "city not found", ⟨[], [], []⟩, ⟨0, 1, 0, 0, 0⟩) :=
  weather_failure_fatal
    ⟨⟨false, 404, ⟨none, none, none, none, some "city not found"⟩⟩,
     ⟨true, 200, ⟨some [⟨some ⟨some 2⟩⟩], none⟩⟩, .fail, ⟨true, 200, ⟨.absent⟩⟩⟩
    ⟨[], [], []⟩ 1 2 0 rfl

/-- Payload of a successful route outcome. -/
def outPayload : ApiOut AggPayload → Option AggPayload
  | .ok v => some v
  | .err _ _ => none

/-- Forget the two air-quality fields of a payload. -/
def eraseAqi (p : AggPayload) : AggPayload := { p with aqi := none, aqiText := none }

/-- A successful weather call with a successful air reply whose index
is 7, outside the 1..5 scale. -/
def airOutOfRangeEnv : AggEnv :=
  ⟨⟨true, 200, ⟨some "Seoul", some "KR", some ⟨some 21⟩, some [⟨some "clear sky"⟩], none⟩⟩,
   ⟨true, 200, ⟨some [⟨some ⟨some 7⟩⟩], none⟩⟩,
   .fail, ⟨false, 500, ⟨.absent⟩⟩⟩

/-- C6 counterexample: when the air call succeeds but returns the
out-of-range index 7, the response carries `aqi = 7` with a null label,
so the AQI index is not null as the claim demands. -/
theorem air_out_of_range_index_not_null :
    (outPayload (weatherByCoords airOutOfRangeEnv ⟨[], [], []⟩ 1 2 0).1).map
        (fun p => (p.aqi, p.aqiText)) = some (some 7, none)
    ∧ some (7 : Int) ≠ (none : Option Int) :=
  ⟨rfl, by decide⟩

/-- C6 amended: the AQI label mapping is total — exact on 1..5, null on
null and on any other integer; when the weather call succeeds and the
air call fails, or succeeds without a value, both the index and the
label are null; when the air call succeeds the index echoes the
extracted value and the label is its total mapping; and the rest of the
response and the state do not depend on the air response at all. -/
theorem air_failure_soft_amended (env : AggEnv) (st : SrvState) (lat lon : ℚ) (now : Nat)
    (hok : env.weather.ok = true) :
    (aqiLabel (some 1) = some "Good" ∧ aqiLabel (some 2) = some "Fair"
      ∧ aqiLabel (some 3) = some "Moderate" ∧ aqiLabel (some 4) = some "Poor"
      ∧ aqiLabel (some 5) = some "Very Poor" ∧ aqiLabel none = none
      ∧ ∀ n : Int, (n < 1 ∨ 5 < n) → aqiLabel (some n) = none)
    ∧ (env.air.ok = false →
        (outPayload (weatherByCoords env st lat lon now).1).map (fun p => (p.aqi, p.aqiText))
          = some (none, none))
    ∧ (env.air.ok = true → extractAqi env.air.body = none →
        (outPayload (weatherByCoords env st lat lon now).1).map (fun p => (p.aqi, p.aqiText))
          = some (none, none))
    ∧ (env.air.ok = true →
        (outPayload (weatherByCoords env st lat lon now).1).map (fun p => (p.aqi, p.aqiText))
          = some (extractAqi env.air.body, aqiLabel (extractAqi env.air.body)))
    ∧ (∀ a2 : HttpResp OWAir,
        (weatherByCoords { env with air := a2 } st lat lon now).2
          = (weatherByCoords env st lat lon now).2
        ∧ (outPayload (weatherByCoords { env with air := a2 } st lat lon now).1).map eraseAqi
          = (outPayload (weatherByCoords env st lat lon now).1).map eraseAqi) := by
  refine ⟨⟨rfl, rfl, rfl, rfl, rfl, rfl, ?_⟩, ?_, ?_, ?_, ?_⟩
  · intro n hn
    simp only [aqiLabel]
    split_ifs with h1 h2 h3 h4 h5
    · exact absurd (Option.some.inj h1) (by omega)
    · exact absurd (Option.some.inj h2) (by omega)
    · exact absurd (Option.some.inj h3) (by omega)
    · exact absurd (Option.some.inj h4) (by omega)
    · exact absurd (Option.some.inj h5) (by omega)
    · rfl
  · intro hfail
    simp [weatherByCoords, hok, hfail, outPayload]
  · intro hair hnone
    simp [weatherByCoords, hok, hair, hnone, outPayload, aqiLabel]
  · intro hair
    simp [weatherByCoords, hok, hair, outPayload]
  · intro a2
    refine ⟨?_, ?_⟩ <;> simp [weatherByCoords, hok, outPayload, eraseAqi]

/-- A successful weather call whose air call failed. -/
def softAirEnv : AggEnv :=
  ⟨⟨true, 200, ⟨some "Seoul", some "KR", some ⟨some 21⟩, some [⟨some "clear sky"⟩], none⟩⟩,
   ⟨false, 500, ⟨none, none⟩⟩, .fail, ⟨false, 500, ⟨.absent⟩⟩⟩

/-- Witness for the amended soft-air theorem at a concrete environment. -/
theorem air_failure_soft_amended_witness :
    (outPayload (weatherByCoords softAirEnv ⟨[], [], []⟩ 1 2 0).1).map
        (fun p => (p.aqi, p.aqiText)) = some (none, none) :=
  (air_failure_soft_amended softAirEnv ⟨[], [], []⟩ 1 2 0 rfl).2.1 rfl

theorem dropWhile_idem (p : Char → Bool) (l : List Char) :
    (l.dropWhile p).dropWhile p = l.dropWhile p := by
  induction l with
  | nil => rfl
  | cons c cs ih =>
    by_cases h : p c
    · simp [List.dropWhile_cons, h, ih]
    · simp [List.dropWhile_cons, h]

theorem dropWhile_head_false (p : Char → Bool) (l : List Char) (c : Char) (t : List Char)
    (h : l.dropWhile p = c :: t) : p c = false := by
  induction l with
  | nil => simp at h
  | cons a as ih =>
    by_cases hp : p a
    · rw [List.dropWhile_cons, if_pos hp] at h
      exact ih h
    · rw [List.dropWhile_cons, if_neg hp] at h
      cases h
      simpa using hp

theorem trimChars_idem (l : List Char) : trimChars (trimChars l) = trimChars l := by
  unfold trimChars
  have hrevdrop :
      (((l.dropWhile isWs).reverse.dropWhile isWs).reverse).reverse.dropWhile isWs
        = ((l.dropWhile isWs).reverse.dropWhile isWs).reverse.reverse := by
    rw [List.reverse_reverse, dropWhile_idem]
  have hfrontdrop :
      (((l.dropWhile isWs).reverse.dropWhile isWs).reverse).dropWhile isWs
        = ((l.dropWhile isWs).reverse.dropWhile isWs).reverse := by
    rcases hcase : ((l.dropWhile isWs).reverse.dropWhile isWs).reverse with _ | ⟨c, t⟩
    · rfl
    · have hsuff : (l.dropWhile isWs).reverse.dropWhile isWs <:+ (l.dropWhile isWs).reverse :=
        List.dropWhile_suffix isWs
      have hpre : c :: t <+: l.dropWhile isWs := by
        have := List.reverse_prefix.2 hsuff
        rw [List.reverse_reverse] at this
        rw [← hcase]
        exact this
      obtain ⟨rest, hrest⟩ := hpre
      have hc : isWs c = false := dropWhile_head_false isWs l c (t ++ rest) (by
        rw [← hrest]; rfl)
      rw [List.dropWhile_cons, if_neg (by simp [hc])]
  rw [hfrontdrop, hrevdrop, List.reverse_reverse]

theorem jsTrim_idem (s : String) : jsTrim (jsTrim s) = jsTrim s := by
  simp [jsTrim, trimChars_idem]

/-- One raw element of the OpenWeather geocoding reply. -/
structure GeoItemRaw where
  name : Option String
  lat : Option ℚ
  lon : Option ℚ
  country : Option String
  state : Option String
deriving DecidableEq, Repr

/-- A validated place candidate as served by `/api/geo`. -/
structure Candidate where
  name : String
  country : String
  state : Option String
  lat : ℚ
  lon : ℚ
deriving DecidableEq, Repr

/-- The `/api/geo` filter: `x?.name && x?.country && x?.lat != null &&
x?.lon != null` — truthy name and country, present coordinates. -/
def geoValid (x : GeoItemRaw) : Bool :=
  truthyStr x.name && truthyStr x.country && x.lat.isSome && x.lon.isSome

/-- The `/api/geo` projection of a valid item. -/
def toCandidate (x : GeoItemRaw) : Candidate :=
  { name := x.name.getD "", country := x.country.getD "", state := x.state,
    lat := x.lat.getD 0, lon := x.lon.getD 0 }

/-- GET `/api/geo`: reject a blank query, propagate a provider failure,
otherwise keep the valid candidates in provider order. -/
def geoEndpoint (q : String) (resp : HttpResp (List GeoItemRaw)) :
    ApiOut (List Candidate) :=
  if jsTrim q = "" then .err 400 "Missing q"
  else if !resp.ok then .err resp.status "Geocoding failed"
  else .ok ((resp.body.filter geoValid).map toCandidate)

/-- The frontend search outcome: nothing sent (blank query), a backend
error surfaced, the no-match message, the disambiguation candidate
list, or the aggregated response of `/api/weatherByCoords`. -/
inductive SearchOutcome where
  | idle
  | backendError (msg : String)
  | noMatch
  | ambiguous (cs : List Candidate)
  | aggregated (r : ApiOut AggPayload)
deriving DecidableEq, Repr

/-- `onSearch` in App.tsx composed with the backend routes it invokes:
trim the query and stop when blank; call `/api/geo`; surface its error;
zero candidates stop with the no-match message; exactly one candidate
continues into `/api/weatherByCoords`; two or more candidates stop with
the disambiguation list. -/
def onSearch (q : String) (geoResp : HttpResp (List GeoItemRaw)) (env : AggEnv)
    (st : SrvState) (now : Nat) : SearchOutcome × SrvState × Calls :=
  if jsTrim q = "" then (.idle, st, ⟨0, 0, 0, 0, 0⟩)
  else
    match geoEndpoint (jsTrim q) geoResp with
    | .err _ msg => (.backendError msg, st, ⟨1, 0, 0, 0, 0⟩)
    | .ok [] => (.noMatch, st, ⟨1, 0, 0, 0, 0⟩)
    | .ok [c] =>
      let r := weatherByCoords env st c.lat c.lon now
      (.aggregated r.1, r.2.1, { r.2.2 with geo := 1 })
    | .ok cs => (.ambiguous cs, st, ⟨1, 0, 0, 0, 0⟩)

/-- C4: the zero/one/many candidate policy of a free-text search: with
a successful geocode reply, zero valid candidates end in the no-match
failure with no downstream call; exactly one candidate goes straight
into the aggregation pipeline, which yields a full payload whenever the
weather call succeeds; two or more candidates end in the candidate list
alone, again with no weather, air, region or news call. -/
theorem onSearch_candidate_policy (q : String) (geoResp : HttpResp (List GeoItemRaw))
    (env : AggEnv) (st : SrvState) (now : Nat)
    (hq : ¬ jsTrim q = "") (hgeo : geoResp.ok = true) :
    (geoResp.body.filter geoValid = [] →
      onSearch q geoResp env st now = (.noMatch, st, ⟨1, 0, 0, 0, 0⟩))
    ∧ (∀ c, (geoResp.body.filter geoValid).map toCandidate = [c] →
      onSearch q geoResp env st now
        = (.aggregated (weatherByCoords env st c.lat c.lon now).1,
           (weatherByCoords env st c.lat c.lon now).2.1,
           { (weatherByCoords env st c.lat c.lon now).2.2 with geo := 1 })
      ∧ (env.weather.ok = true →
          ∃ p, (weatherByCoords env st c.lat c.lon now).1 = .ok p))
    ∧ (∀ c1 c2 rest, (geoResp.body.filter geoValid).map toCandidate = c1 :: c2 :: rest →
      onSearch q geoResp env st now
        = (.ambiguous (c1 :: c2 :: rest), st, ⟨1, 0, 0, 0, 0⟩)) := by
  have hgeoRun : geoEndpoint (jsTrim q) geoResp
      = .ok ((geoResp.body.filter geoValid).map toCandidate) := by
    rw [geoEndpoint, if_neg (by rw [jsTrim_idem]; exact hq), hgeo]
    rfl
  refine ⟨?_, ?_, ?_⟩
  · intro hzero
    rw [onSearch, if_neg hq, hgeoRun, hzero]
    rfl
  · intro c hone
    constructor
    · rw [onSearch, if_neg hq, hgeoRun, hone]
    · intro hwx
      unfold weatherByCoords
      rw [hwx]
      exact ⟨_, rfl⟩
  · intro c1 c2 rest hmany
    rw [onSearch, if_neg hq, hgeoRun, hmany]

/-- Witness for the candidate policy: an ambiguous two-candidate reply
returns only the list, with zero downstream calls recorded. -/
theorem onSearch_candidate_policy_witness :
    onSearch "Madison"
        ⟨true, 200,
          [⟨some "Madison", some 43, some (-89), some "US", some "Wisconsin"⟩,
           ⟨some "Madison", some 32, some (-86), some "US", some "Alabama"⟩]⟩
        softAirEnv ⟨[], [], []⟩ 0
      = (.ambiguous
          [⟨"Madison", "US", some "Wisconsin", 43, -89⟩,
           ⟨"Madison", "US", some "Alabama", 32, -86⟩],
         ⟨[], [], []⟩, ⟨1, 0, 0, 0, 0⟩) :=
  (onSearch_candidate_policy "Madison"
      ⟨true, 200,
        [⟨some "Madison", some 43, some (-89), some "US", some "Wisconsin"⟩,
         ⟨some "Madison", some 32, some (-86), some "US", some "Alabama"⟩]⟩
      softAirEnv ⟨[], [], []⟩ 0 (by decide) rfl).2.2
    ⟨"Madison", "US", some "Wisconsin", 43, -89⟩
    ⟨"Madison", "US", some "Alabama", 32, -86⟩ [] rfl

/-- `favoriteCity.create` under the unique `cityKey` index: a row whose
key already exists raises a duplicate-key conflict. -/
def favCreate (favs : List FavRow) (row : FavRow) : Except Unit (List FavRow) :=
  if favHasKey favs row.cityKey then .error () else .ok (favs ++ [row])

/-- `favoriteCity.delete` by its unique key. -/
def favDeleteKey (favs : List FavRow) (key : String) : List FavRow :=
  favs.filter (fun r => !(r.cityKey == key))

/-- Phase 1 of the toggle route: the `findUnique` read. -/
def toggleReadPhase (favs : List FavRow) (key : String) : Bool := favHasKey favs key

/-- Phase 2 of the toggle route, branching on what its own earlier read
observed: delete when a row was seen, otherwise create. -/
def toggleWritePhase (favs : List FavRow) (city : String) (country : Option String)
    (key : String) (observed : Bool) (now : Nat) : Except Unit (List FavRow × Bool) :=
  if observed then .ok (favDeleteKey favs key, false)
  else (favCreate favs ⟨city, country, key, now⟩).map (fun f => (f, true))

/-- Two toggle requests for the same place under the legal interleaving
read A, read B, write A, write B of the two-phase implementation. -/
def twoTogglesReadReadWriteWrite (favs : List FavRow) (city : String)
    (country : Option String) (now : Nat) : Except Unit (List FavRow) :=
  let key := makeCityKey (jsTrim city) (country.map jsTrim)
  let obsA := toggleReadPhase favs key
  let obsB := toggleReadPhase favs key
  match toggleWritePhase favs (jsTrim city) (country.map jsTrim) key obsA now with
  | .error e => .error e
  | .ok (favs1, _) =>
    (toggleWritePhase favs1 (jsTrim city) (country.map jsTrim) key obsB now).map
      (fun x => x.1)

/-- C10 counterexample: the toggle is `findUnique` followed by a
separate write, so the interleaving read-read-write-write of two
toggles for the same absent place makes both requests observe absence,
both attempt `create`, and the second create hits the unique index — a
duplicate-key conflict, which the claim says can never happen. -/
theorem toggle_interleaving_conflict :
    twoTogglesReadReadWriteWrite [] "Seoul" (some "KR") 0 = .error () := rfl

theorem upsertRecent_count_one (rows : List RecentRow) (city : String)
    (country : Option String) (key : String) (now : Nat)
    (hU : countKey rows key ≤ 1) :
    countKey (upsertRecent rows city country key now) key = 1 := by
  cases hany : rows.any (fun r => r.cityKey == key) with
  | true =>
    rw [upsertRecent_hit _ _ _ _ _ hany,
      countKey_map_keyfix _ (fun r => by cases hb : (r.cityKey == key) <;> simp [hb])]
    obtain ⟨r0, hf, hk⟩ := findKey_isSome_of_any rows key hany
    have hmem := List.mem_of_find?_eq_some hf
    have hmemf : r0 ∈ rows.filter (fun r => r.cityKey == key) :=
      List.mem_filter.2 ⟨hmem, hk⟩
    have hpos := List.length_pos_of_mem hmemf
    have h1 : 0 < countKey rows key := by simpa [countKey] using hpos
    omega
  | false =>
    rw [upsertRecent_miss _ _ _ _ _ hany, countKey_append,
      countKey_eq_zero_of_any_false rows key hany]
    simp [countKey, List.filter]

/-- C10 amended: the HistoryStore upsert is a single atomic store
operation keyed by the unique constraint — any schedule of two
concurrent upserts for the same key is one of the two sequential
orders, each of which succeeds and leaves exactly one row — while the
FavoritesStore toggle is a findUnique-then-write sequence whose
read-read-write-write interleaving for one absent key raises a
duplicate-key conflict. -/
theorem upsert_atomic_toggle_not :
    (∀ rows c1 co1 c2 co2 key t1 t2, countKey rows key ≤ 1 →
      countKey (upsertRecent (upsertRecent rows c1 co1 key t1) c2 co2 key t2) key = 1)
    ∧ (∀ favs city country now,
        favHasKey favs (makeCityKey (jsTrim city) (country.map jsTrim)) = false →
        twoTogglesReadReadWriteWrite favs city country now = .error ()) := by
  constructor
  · intro rows c1 co1 c2 co2 key t1 t2 hU
    exact upsertRecent_count_one _ c2 co2 key t2
      (le_of_eq (upsertRecent_count_one rows c1 co1 key t1 hU))
  · intro favs city country now habs
    have hobs : toggleReadPhase favs (makeCityKey (jsTrim city) (country.map jsTrim))
        = false := habs
    have hw1 : toggleWritePhase favs (jsTrim city) (country.map jsTrim)
        (makeCityKey (jsTrim city) (country.map jsTrim)) false now
        = .ok (favs ++ [⟨jsTrim city, country.map jsTrim,
            makeCityKey (jsTrim city) (country.map jsTrim), now⟩], true) := by
      simp [toggleWritePhase, favCreate, habs, Except.map]
    have hdup : favHasKey (favs ++ [⟨jsTrim city, country.map jsTrim,
        makeCityKey (jsTrim city) (country.map jsTrim), now⟩])
        (makeCityKey (jsTrim city) (country.map jsTrim)) = true := by
      simp [favHasKey]
    have hw2 : toggleWritePhase (favs ++ [⟨jsTrim city, country.map jsTrim,
        makeCityKey (jsTrim city) (country.map jsTrim), now⟩]) (jsTrim city)
        (country.map jsTrim) (makeCityKey (jsTrim city) (country.map jsTrim)) false now
        = .error () := by
      simp [toggleWritePhase, favCreate, hdup, Except.map]
    simp [twoTogglesReadReadWriteWrite, hobs, hw1, hw2, Except.map]

/-- Witness for the amended atomicity theorem at concrete inputs. -/
theorem upsert_atomic_toggle_not_witness :
    countKey (upsertRecent (upsertRecent [] "Seoul" (some "KR") "seoul|kr" 1)
        "Seoul" (some "KR") "seoul|kr" 2) "seoul|kr" = 1
    ∧ twoTogglesReadReadWriteWrite [] "Busan" (some "KR") 4 = .error () :=
  ⟨upsert_atomic_toggle_not.1 [] "Seoul" (some "KR") "Seoul" (some "KR") "seoul|kr" 1 2
      (by decide),
   upsert_atomic_toggle_not.2 [] "Busan" (some "KR") 4 (by decide)⟩
